import Mathlib

/-!
Shallow embedding of the `catcollector` Django application's controller layer
(`main_app/views.py`) together with the parts of its data model that the
controllers touch.  Records are plain structures, the relational backing store
is a `Store` structure of lists, and each view function becomes a Lean
function from its inputs (path parameters, form body, session, store) to a
`Response` paired with the updated store.  External effects (the S3 upload,
the random uuid hex) enter as explicit parameters.
-/

namespace CatCollector

/-- A `Cat` row: `name`, `breed`, `description`, `age`, owning `user` foreign
key (fields as listed by `CatCreate.fields` in `views.py` plus the `user`
assigned in `CatCreate.form_valid`). -/
structure Cat where
  id : Nat
  name : String
  breed : String
  description : String
  age : Nat
  userId : Nat
deriving Repr, DecidableEq

/-- A `Feeding` row: `date`, `meal`, and the `cat_id` foreign key that
`add_feeding` assigns from the URL parameter. -/
structure Feeding where
  id : Nat
  date : String
  meal : String
  catId : Nat
deriving Repr, DecidableEq

/-- A `Toy` row (name and color; global, not user-scoped). -/
structure Toy where
  id : Nat
  name : String
  color : String
deriving Repr, DecidableEq

/-- A `Photo` row: the object-storage `url` and the `cat_id` foreign key. -/
structure Photo where
  id : Nat
  url : String
  catId : Nat
deriving Repr, DecidableEq

/-- The relational backing store: users (id and username), the four entity
tables and the `Cat`–`Toy` junction table. -/
structure Store where
  users : List (Nat × String)
  cats : List Cat
  feedings : List Feeding
  toys : List Toy
  catToys : List (Nat × Nat)
  photos : List Photo
deriving Repr, DecidableEq

/-- The file part of a multipart submission (`request.FILES`): only the
original file name matters to the controller logic. -/
structure UploadedFile where
  name : String
deriving Repr, DecidableEq

/-- Body of a signup form submission (Django's `UserCreationForm` fields). -/
structure SignupFormData where
  username : String
  password1 : String
  password2 : String
deriving Repr, DecidableEq

/-- Body of a feeding form submission: the two `FeedingForm` fields plus an
optional client-supplied cat field (which the controller overrides). -/
structure FeedingFormData where
  date : String
  meal : String
  clientCat : Option Nat
deriving Repr, DecidableEq

/-- The response a view function returns: a redirect or a render instruction.
Render responses carry the data handed to the template; `serverError` stands
for an unhandled exception escaping the view. -/
inductive Response where
  | redirectLogin
  | redirectCatDetail (catId : Nat)
  | redirectCatsIndex
  | renderCatsIndex (cats : List Cat)
  | renderCatDetail (cat : Cat) (toysCatDoesntHave : List Toy)
  | renderSignup (form : SignupFormData) (error : String)
  | renderCatForm
  | serverError (msg : String)
deriving Repr, DecidableEq

inductive HttpMethod where
  | get
  | post
deriving Repr, DecidableEq

/-- Fixed base URL for uploaded photos (`S3_BASE_URL` in `views.py`). -/
def S3_BASE_URL : String := "https://s3.us-east-2.amazonaws.com/"

/-- Fixed bucket name (`BUCKET` in `views.py`). -/
def BUCKET : String := "djangocatcollectorproject"

/-- Lookup a cat by id: `Cat.objects.get(id=cat_id)`; `none` corresponds to
the `DoesNotExist` exception. -/
def getCat (st : Store) (catId : Nat) : Option Cat :=
  st.cats.find? (fun c => c.id == catId)

/-- The filtered queryset of `cats_index`:
`Cat.objects.filter(user=request.user)`. -/
def listCatsForUser (st : Store) (userId : Nat) : List Cat :=
  st.cats.filter (fun c => c.userId == userId)

/-- Toy ids already associated to a cat (`cat.toy.all().values_list('id')`). -/
def catToyIds (st : Store) (catId : Nat) : List Nat :=
  (st.catToys.filter (fun p => p.1 == catId)).map (fun p => p.2)

/-- Toys the cat does not have (`Toy.objects.exclude(id__in=cat_toy_ids)`). -/
def listToysExcluding (st : Store) (catId : Nat) : List Toy :=
  st.toys.filter (fun t => !((catToyIds st catId).contains t.id))

/-- Modelled from the spec: Django's `DateField` accepts an ISO
`YYYY-MM-DD` date; the spec speaks only of a parseable vs "unparseable date"
(`forms.py`/`models.py` are not in the sources), so date validity is
modelled as matching that shape digit-for-digit. -/
def dateParses (s : String) : Bool :=
  match s.toList with
  | [y1, y2, y3, y4, s1, m1, m2, s2, d1, d2] =>
    y1.isDigit && y2.isDigit && y3.isDigit && y4.isDigit && s1 == '-' &&
    m1.isDigit && m2.isDigit && s2 == '-' && d1.isDigit && d2.isDigit
  | _ => false

/-- Modelled from the spec: the `meal` field is "enumerated: {Breakfast,
Lunch, Dinner}"; the stored codes are the one-letter values shown in the
`views.py` comment (`{'meal': 'B', ...}`), as usual for this model. -/
def mealChoices : List String := ["B", "L", "D"]

/-- Modelled from the spec: `FeedingForm.is_valid()` — the submission is
valid when the meal is one of the enumerated choices and the date parses
(`createFeeding ... -> Feeding | ValidationError` "fails with ValidationError
when `meal` is not one of the enumerated values or `date` is unparseable"). -/
def feedingFormIsValid (f : FeedingFormData) : Bool :=
  mealChoices.contains f.meal && dateParses f.date

/-- The in-memory instance built by `form.save(commit=False)`: the form's own
fields populate the record; the cat reference is whatever the client-supplied
field would give (not yet the URL's cat id), and the database id is not yet
assigned. -/
def formSaveCommitFalse (st : Store) (f : FeedingFormData) : Feeding :=
  { id := st.feedings.length, date := f.date, meal := f.meal,
    catId := f.clientCat.getD 0 }

/-- The `add_feeding` view body: validates the form; when valid, builds the
in-memory feeding, overwrites its `cat_id` with the URL's `cat_id`, and saves
it; valid or not, it redirects to the cat detail page. -/
def add_feeding (catId : Nat) (form : FeedingFormData) (st : Store) :
    Response × Store :=
  if feedingFormIsValid form then
    let nf := formSaveCommitFalse st form
    let nf2 := { nf with catId := catId }
    (Response.redirectCatDetail catId,
      { st with feedings := st.feedings ++ [nf2] })
  else
    (Response.redirectCatDetail catId, st)

/-- The `cats_index` view body: render the index with the user's cats. -/
def cats_index (userId : Nat) (st : Store) : Response × Store :=
  (Response.renderCatsIndex (listCatsForUser st userId), st)

/-- The `cat_detail` view body: fetch the cat (unhandled `DoesNotExist` when
missing) and render the detail page with the toys the cat does not have. -/
def cat_detail (catId : Nat) (st : Store) : Response × Store :=
  match getCat st catId with
  | none => (Response.serverError "Cat matching query does not exist.", st)
  | some cat => (Response.renderCatDetail cat (listToysExcluding st catId), st)

/-- The `assoc_toy` view body: fetch the cat (unhandled `DoesNotExist` when
missing), `cat.toy.add(toy_id)` — a set insert, a no-op when the pair is
already present — then redirect to the detail page. -/
def assoc_toy (catId toyId : Nat) (st : Store) : Response × Store :=
  match getCat st catId with
  | none => (Response.serverError "Cat matching query does not exist.", st)
  | some _ =>
    let catToys :=
      if (catId, toyId) ∈ st.catToys then st.catToys
      else st.catToys ++ [(catId, toyId)]
    (Response.redirectCatDetail catId, { st with catToys := catToys })

/-- The `unassoc_toy` view body: fetch the cat (unhandled `DoesNotExist` when
missing), `cat.toy.remove(toy_id)` — deletes the junction rows for the pair,
a no-op when none exist (also for an unknown toy id) — then redirect. -/
def unassoc_toy (catId toyId : Nat) (st : Store) : Response × Store :=
  match getCat st catId with
  | none => (Response.serverError "Cat matching query does not exist.", st)
  | some _ =>
    (Response.redirectCatDetail catId,
      { st with catToys :=
          st.catToys.filter (fun p => decide (p ≠ (catId, toyId))) })

/-- A fresh user id for a newly created user row. -/
def freshUserId (st : Store) : Nat := st.users.length + 1

/-- The empty `UserCreationForm()` the view constructs for rendering. -/
def emptyUserCreationForm : SignupFormData :=
  { username := "", password1 := "", password2 := "" }

/-- Modelled from the spec: `UserCreationForm.is_valid()` (Django's form, an
external capability per the spec: "validates a username/password form") —
valid when the username is nonempty and not taken and the two passwords agree
and are nonempty. -/
def userCreationFormIsValid (st : Store) (f : SignupFormData) : Bool :=
  (f.username != "") && st.users.all (fun u => u.2 != f.username) &&
  (f.password1 == f.password2) && (f.password1 != "")

/-- The `signup` view: on a valid POST it saves the user, logs the new user
in, and redirects to the cats index; otherwise (invalid POST or GET) it
renders the signup page with a freshly constructed empty form — the invalid
POST additionally carries the error message.  Returns the response, the new
session, and the new store. -/
def signup (method : HttpMethod) (form : SignupFormData)
    (session : Option Nat) (st : Store) :
    Response × Option Nat × Store :=
  match method with
  | HttpMethod.post =>
    if userCreationFormIsValid st form then
      let uid := freshUserId st
      (Response.redirectCatsIndex, some uid,
        { st with users := st.users ++ [(uid, form.username)] })
    else
      (Response.renderSignup emptyUserCreationForm "Invalid sign up - try again",
        session, st)
  | HttpMethod.get =>
    (Response.renderSignup emptyUserCreationForm "", session, st)

/-- Python's `str.rfind(c)`: the index of the last occurrence of `c`, or `-1`
when `c` does not occur.  The count of characters strictly after the last
occurrence is the length of the longest suffix free of `c`, which is
`takeWhile` on the reversed character list; `length - 1 -` that count is the
index of the last occurrence, and it degenerates to `-1` exactly when `c` is
absent. -/
def pyRfind (s : String) (c : Char) : Int :=
  (s.length : Int) - 1 -
    ((s.toList.reverse.takeWhile (fun x => x != c)).length : Int)

/-- Python's slice `s[i:]` with Python index semantics: a negative `i` counts
from the end (clamped at the start of the string). -/
def pySliceFrom (s : String) (i : Int) : String :=
  let start : Int := if i < 0 then (s.length : Int) + i else i
  String.mk (s.toList.drop (max 0 start).toNat)

/-- The object key built by `add_photo`:
`uuid.uuid4().hex[:6] + photo_file.name[photo_file.name.rfind('.'):]` —
the first six characters of the random uuid hex followed by the Python slice
of the file name from the last dot. -/
def genKey (uuidHex : String) (fileName : String) : String :=
  String.mk (uuidHex.toList.take 6) ++ pySliceFrom fileName (pyRfind fileName '.')

/-- Modelled from the spec: the `Photo` model (the repository's `models.py`
is not among the sources) is a standard model whose record-creation manager
is the default one, named `objects`; the model class has no attribute named
`object`, so the call `Photo.object.create(...)` in `add_photo` raises an
`AttributeError`. -/
def photoModelHasObjectAttr : Bool := false

/-- The `add_photo` view: no file means a plain redirect; with a file it
builds the key, attempts the S3 upload and, inside the same `try`, builds the
URL and calls `Photo.object.create(url=url, cat_id=cat_id)`; any exception —
an upload failure, or the `AttributeError` from the `Photo.object` attribute
lookup — is printed and swallowed, and the view redirects to the cat detail
page regardless.  The random uuid hex and the upload outcome are passed in as
parameters.  Note this view has no `login_required` decorator. -/
def add_photo (catId : Nat) (file : Option UploadedFile) (uuidHex : String)
    (uploadOk : Bool) (st : Store) : Response × Store :=
  match file with
  | none => (Response.redirectCatDetail catId, st)
  | some f =>
    let key := genKey uuidHex f.name
    let attempt : Except String Store :=
      if uploadOk then
        let url := S3_BASE_URL ++ BUCKET ++ "/" ++ key
        if photoModelHasObjectAttr then
          Except.ok { st with photos :=
            st.photos ++ [{ id := st.photos.length, url := url, catId := catId }] }
        else
          Except.error "AttributeError: type object Photo has no attribute object"
      else
        Except.error "upload error"
    match attempt with
    | Except.ok st2 => (Response.redirectCatDetail catId, st2)
    | Except.error _ => (Response.redirectCatDetail catId, st)

/-- The `CatCreate` view body (a `CreateView` over all four cat form fields)
with `form_valid` assigning the logged-in user as the owner. -/
def createCat (userId : Nat) (name breed description : String) (age : Nat)
    (st : Store) : Response × Store :=
  let cid := st.cats.length + 1
  (Response.redirectCatDetail cid,
    { st with cats := st.cats ++
        [{ id := cid, name := name, breed := breed,
           description := description, age := age, userId := userId }] })

/-- The `CatUpdate` view body (an `UpdateView` with
`fields = ('description', 'age')`): only those two fields of the target row
are written. -/
def updateCat (catId : Nat) (description : String) (age : Nat) (st : Store) :
    Response × Store :=
  match getCat st catId with
  | none => (Response.serverError "Not Found", st)
  | some _ =>
    (Response.redirectCatDetail catId,
      { st with cats := st.cats.map (fun c =>
          if c.id == catId then { c with description := description, age := age }
          else c) })

/-- The `CatDelete` view body (a `DeleteView` with `success_url = '/cats/'`);
owned feedings and photos cascade with the cat (per the spec's data model)
and its junction rows go with it. -/
def deleteCat (catId : Nat) (st : Store) : Response × Store :=
  match getCat st catId with
  | none => (Response.serverError "Not Found", st)
  | some _ =>
    (Response.redirectCatsIndex,
      { st with
          cats := st.cats.filter (fun c => !(c.id == catId)),
          feedings := st.feedings.filter (fun f => !(f.catId == catId)),
          photos := st.photos.filter (fun p => !(p.catId == catId)),
          catToys := st.catToys.filter (fun p => !(p.1 == catId)) })

/-- The cat-scoped routes of the application (everything under `/cats`,
including `POST /cats/{id}/photos`). -/
inductive CatRoute where
  | catsIndex
  | catDetail (catId : Nat)
  | addFeeding (catId : Nat) (form : FeedingFormData)
  | assocToy (catId : Nat) (toyId : Nat)
  | unassocToy (catId : Nat) (toyId : Nat)
  | catCreate (name breed description : String) (age : Nat)
  | catUpdate (catId : Nat) (description : String) (age : Nat)
  | catDelete (catId : Nat)
  | addPhoto (catId : Nat) (file : Option UploadedFile) (uuidHex : String)
      (uploadOk : Bool)

/-- Whether the route is `POST /cats/{id}/photos`. -/
def CatRoute.isAddPhoto : CatRoute → Bool
  | CatRoute.addPhoto _ _ _ _ => true
  | _ => false

/-- The `login_required` decorator / `LoginRequiredMixin`: with no
authenticated session the request is answered by a redirect to the login
page and the view body never runs. -/
def requireLogin (session : Option Nat)
    (body : Nat → Store → Response × Store) (st : Store) : Response × Store :=
  match session with
  | none => (Response.redirectLogin, st)
  | some u => body u st

/-- Dispatch of the cat-scoped routes as wired in `urls.py`/`views.py`: every
handler is guarded by `login_required` or `LoginRequiredMixin` except
`add_photo`, which carries no decorator in the source. -/
def dispatchCatRoute (session : Option Nat) (r : CatRoute) (st : Store) :
    Response × Store :=
  match r with
  | CatRoute.catsIndex => requireLogin session (fun u s => cats_index u s) st
  | CatRoute.catDetail cid => requireLogin session (fun _ s => cat_detail cid s) st
  | CatRoute.addFeeding cid f =>
      requireLogin session (fun _ s => add_feeding cid f s) st
  | CatRoute.assocToy cid tid =>
      requireLogin session (fun _ s => assoc_toy cid tid s) st
  | CatRoute.unassocToy cid tid =>
      requireLogin session (fun _ s => unassoc_toy cid tid s) st
  | CatRoute.catCreate n b d a =>
      requireLogin session (fun u s => createCat u n b d a s) st
  | CatRoute.catUpdate cid d a =>
      requireLogin session (fun _ s => updateCat cid d a s) st
  | CatRoute.catDelete cid =>
      requireLogin session (fun _ s => deleteCat cid s) st
  | CatRoute.addPhoto cid file hex ok => add_photo cid file hex ok st

/-- The extension "from the last `.` in the filename onward", written from
the spec's description: the characters strictly after the last dot are the
longest dot-free suffix, and the extension is the dot followed by them; with
no dot the extension is empty. -/
def extFromLastDot (s : String) : String :=
  if s.toList.contains '.' then
    String.mk ('.' :: (s.toList.reverse.takeWhile (fun c => c != '.')).reverse)
  else ""

/-- A small concrete store used by witness and counterexample theorems: two
users, one cat owned by the first user, one toy, no associations yet. -/
def demoStore : Store :=
  { users := [(1, "alice"), (2, "bob")],
    cats := [{ id := 1, name := "Tom", breed := "Tabby",
               description := "gray", age := 3, userId := 1 }],
    feedings := [],
    toys := [{ id := 5, name := "Ball", color := "red" }],
    catToys := [],
    photos := [] }

/-- C1: even when a file is present and the S3 upload succeeds, `add_photo`
persists nothing — the `Photo.object.create` call raises an `AttributeError`
(the manager is named `objects`) which the surrounding `except` swallows, so
the store, in particular the photo table, is returned unchanged and the view
just redirects to the cat detail page. -/
theorem add_photo_upload_success_persists_nothing
    (catId : Nat) (f : UploadedFile) (uuidHex : String) (st : Store) :
    add_photo catId (some f) uuidHex true st =
      (Response.redirectCatDetail catId, st) := by
  simp [add_photo, photoModelHasObjectAttr]

/-- C2 as stated fails: an unauthenticated `POST /cats/1/photos` with a file
attached is not redirected to login — `add_photo` carries no auth guard, so
the handler body runs and answers with the cat-detail redirect. -/
theorem unauthenticated_add_photo_reaches_handler :
    dispatchCatRoute none
        (CatRoute.addPhoto 1 (some { name := "cat.png" })
          "0123456789abcdef0123456789abcdef" true) demoStore =
      (Response.redirectCatDetail 1, demoStore) ∧
    Response.redirectCatDetail 1 ≠ Response.redirectLogin := by
  refine ⟨?_, by decide⟩
  simp [dispatchCatRoute, add_photo, photoModelHasObjectAttr]

/-- C2 amended: every cat-scoped route other than `POST /cats/{id}/photos`
is behind `login_required`/`LoginRequiredMixin`, so an unauthenticated
request is answered by a redirect to the login page with the store untouched
— the handler body never runs. -/
theorem unauthenticated_cat_routes_redirect_to_login
    (r : CatRoute) (st : Store) (h : r.isAddPhoto = false) :
    dispatchCatRoute none r st = (Response.redirectLogin, st) := by
  cases r <;> simp_all [dispatchCatRoute, requireLogin, CatRoute.isAddPhoto]

/-- Witness for the amended C2 at the cats index route. -/
theorem unauthenticated_cat_routes_redirect_to_login_witness :
    dispatchCatRoute none CatRoute.catsIndex demoStore =
      (Response.redirectLogin, demoStore) :=
  unauthenticated_cat_routes_redirect_to_login CatRoute.catsIndex demoStore rfl

/-- C4: every cat in the listing returned to a user is owned by that user, so
for two distinct users no cat owned by the first appears in the second's
listing. -/
theorem listCatsForUser_only_owner (st : Store) (u1 u2 : Nat) (h : u1 ≠ u2) :
    (∀ c ∈ listCatsForUser st u2, c.userId = u2) ∧
    (∀ c ∈ listCatsForUser st u2, c.userId ≠ u1) := by
  have key : ∀ c ∈ listCatsForUser st u2, c.userId = u2 := by
    intro c hc
    simp [listCatsForUser, List.mem_filter] at hc
    exact hc.2
  exact ⟨key, fun c hc => by rw [key c hc]; exact fun he => h he.symm⟩

/-- Witness for C4 on the demo store. -/
theorem listCatsForUser_only_owner_witness :
    (∀ c ∈ listCatsForUser demoStore 2, c.userId = 2) ∧
    (∀ c ∈ listCatsForUser demoStore 2, c.userId ≠ 1) :=
  listCatsForUser_only_owner demoStore 1 2 (by decide)

/-- C5: an invalid feeding submission creates nothing — the store (hence the
feeding table) is unchanged — and the view still answers with the cat-detail
redirect, surfacing no error. -/
theorem add_feeding_invalid_is_noop (catId : Nat) (f : FeedingFormData)
    (st : Store) (h : feedingFormIsValid f = false) :
    add_feeding catId f st = (Response.redirectCatDetail catId, st) := by
  simp [add_feeding, h]

/-- Witness for C5: meal X is not an enumerated choice, so the submission is
dropped and the view redirects with the store unchanged. -/
theorem add_feeding_invalid_is_noop_witness :
    feedingFormIsValid { date := "2023-04-05", meal := "X", clientCat := none } = false ∧
    add_feeding 1 { date := "2023-04-05", meal := "X", clientCat := none } demoStore =
      (Response.redirectCatDetail 1, demoStore) :=
  ⟨by decide,
   add_feeding_invalid_is_noop 1
     { date := "2023-04-05", meal := "X", clientCat := none } demoStore (by decide)⟩

/-- C6 as stated fails: on an invalid signup POST the view renders a freshly
constructed empty form together with the error message — the submitted form
state is discarded, not re-rendered. -/
theorem signup_invalid_discards_form_state :
    signup HttpMethod.post
        { username := "alice", password1 := "pw1", password2 := "pw2" }
        none demoStore =
      (Response.renderSignup emptyUserCreationForm "Invalid sign up - try again",
        none, demoStore) ∧
    emptyUserCreationForm ≠
      { username := "alice", password1 := "pw1", password2 := "pw2" } := by
  decide

/-- C6 amended: a valid signup POST creates the user, establishes a session
for the new user and redirects to the cat listing; an invalid POST creates no
user and re-renders the signup page with the error message and a fresh empty
form (the submitted form state is discarded). -/
theorem signup_post_behavior (f : SignupFormData) (session : Option Nat)
    (st : Store) :
    (userCreationFormIsValid st f = true →
      signup HttpMethod.post f session st =
        (Response.redirectCatsIndex, some (freshUserId st),
          { st with users := st.users ++ [(freshUserId st, f.username)] })) ∧
    (userCreationFormIsValid st f = false →
      signup HttpMethod.post f session st =
        (Response.renderSignup emptyUserCreationForm "Invalid sign up - try again",
          session, st)) := by
  constructor <;> intro h <;> simp [signup, h]

/-- Witness for the amended C6: one valid and one invalid submission on the
demo store. -/
theorem signup_post_behavior_witness :
    signup HttpMethod.post
        { username := "carol", password1 := "s3cretpw", password2 := "s3cretpw" }
        none demoStore =
      (Response.redirectCatsIndex, some (freshUserId demoStore),
        { demoStore with
            users := demoStore.users ++ [(freshUserId demoStore, "carol")] }) ∧
    signup HttpMethod.post
        { username := "alice", password1 := "a", password2 := "b" }
        none demoStore =
      (Response.renderSignup emptyUserCreationForm "Invalid sign up - try again",
        none, demoStore) :=
  ⟨(signup_post_behavior
      { username := "carol", password1 := "s3cretpw", password2 := "s3cretpw" }
      none demoStore).1 (by decide),
   (signup_post_behavior
      { username := "alice", password1 := "a", password2 := "b" }
      none demoStore).2 (by decide)⟩

/-- C7: for an existing cat, associating a toy twice in succession yields
exactly the state after associating once, and the second call is a no-op
success (the usual redirect), not an error. -/
theorem assoc_toy_idempotent (catId toyId : Nat) (st : Store) (c : Cat)
    (h : getCat st catId = some c) :
    assoc_toy catId toyId ((assoc_toy catId toyId st).2) =
      (Response.redirectCatDetail catId, (assoc_toy catId toyId st).2) := by
  rw [getCat] at h
  by_cases hm : (catId, toyId) ∈ st.catToys <;>
    simp [assoc_toy, getCat, h, hm]

/-- Witness for C7 on the demo store (cat 1 exists, toy 5 never linked). -/
theorem assoc_toy_idempotent_witness :
    assoc_toy 1 5 ((assoc_toy 1 5 demoStore).2) =
      (Response.redirectCatDetail 1, (assoc_toy 1 5 demoStore).2) :=
  assoc_toy_idempotent 1 5 demoStore
    { id := 1, name := "Tom", breed := "Tabby", description := "gray",
      age := 3, userId := 1 }
    (by decide)

/-- C8: for an existing cat, dissociating a toy that is not currently
associated (including an unknown toy id) is a no-op success: the store — in
particular the association set — is unchanged and the view redirects
normally, with no failure. -/
theorem unassoc_toy_not_linked_noop (catId toyId : Nat) (st : Store) (c : Cat)
    (h : getCat st catId = some c) (hm : (catId, toyId) ∉ st.catToys) :
    unassoc_toy catId toyId st = (Response.redirectCatDetail catId, st) := by
  have hf : st.catToys.filter (fun p => decide (p ≠ (catId, toyId))) =
      st.catToys :=
    List.filter_eq_self.mpr (fun p hp => by
      simp only [decide_eq_true_eq]
      exact fun he => hm (he ▸ hp))
  simp only [unassoc_toy, h, hf]

/-- Witness for C8: toy 7 does not exist and was never linked to cat 1. -/
theorem unassoc_toy_not_linked_noop_witness :
    unassoc_toy 1 7 demoStore = (Response.redirectCatDetail 1, demoStore) :=
  unassoc_toy_not_linked_noop 1 7 demoStore
    { id := 1, name := "Tom", breed := "Tabby", description := "gray",
      age := 3, userId := 1 }
    (by decide) (by decide)

/-- C9: `updateCat` writes only the description and age of the target cat:
every cat row keeps its id, name, breed and owner; the updated row is present
with the new description and age; and all other tables are untouched. -/
theorem updateCat_frame (catId : Nat) (d : String) (a : Nat) (st : Store)
    (c : Cat) (h : getCat st catId = some c) :
    ((updateCat catId d a st).2).cats.map
        (fun x => (x.id, x.name, x.breed, x.userId)) =
      st.cats.map (fun x => (x.id, x.name, x.breed, x.userId)) ∧
    { c with description := d, age := a } ∈ ((updateCat catId d a st).2).cats ∧
    ((updateCat catId d a st).2).feedings = st.feedings ∧
    ((updateCat catId d a st).2).toys = st.toys ∧
    ((updateCat catId d a st).2).photos = st.photos ∧
    ((updateCat catId d a st).2).catToys = st.catToys ∧
    ((updateCat catId d a st).2).users = st.users := by
  have h2 := h
  rw [getCat] at h2
  have hmem : c ∈ st.cats := List.mem_of_find?_eq_some h2
  have hid : c.id = catId := by simpa using List.find?_some h2
  have hcats : (updateCat catId d a st).2.cats =
      st.cats.map (fun x =>
        if x.id == catId then { x with description := d, age := a } else x) := by
    simp [updateCat, h]
  refine ⟨?_, ?_, ?_, ?_, ?_, ?_, ?_⟩
  · rw [hcats, List.map_map]
    apply List.map_congr_left
    intro x hx
    by_cases hcid : (x.id == catId) = true <;> simp [Function.comp, hcid]
  · rw [hcats]
    exact List.mem_map.mpr ⟨c, hmem, by simp [hid]⟩
  · simp [updateCat, h]
  · simp [updateCat, h]
  · simp [updateCat, h]
  · simp [updateCat, h]
  · simp [updateCat, h]

/-- Witness for C9 on the demo store. -/
theorem updateCat_frame_witness :
    ((updateCat 1 "older now" 4 demoStore).2).cats.map
        (fun x => (x.id, x.name, x.breed, x.userId)) =
      demoStore.cats.map (fun x => (x.id, x.name, x.breed, x.userId)) ∧
    { id := 1, name := "Tom", breed := "Tabby", description := "older now",
      age := 4, userId := 1 } ∈ ((updateCat 1 "older now" 4 demoStore).2).cats ∧
    ((updateCat 1 "older now" 4 demoStore).2).feedings = demoStore.feedings ∧
    ((updateCat 1 "older now" 4 demoStore).2).toys = demoStore.toys ∧
    ((updateCat 1 "older now" 4 demoStore).2).photos = demoStore.photos ∧
    ((updateCat 1 "older now" 4 demoStore).2).catToys = demoStore.catToys ∧
    ((updateCat 1 "older now" 4 demoStore).2).users = demoStore.users :=
  updateCat_frame 1 "older now" 4 demoStore
    { id := 1, name := "Tom", breed := "Tabby", description := "gray",
      age := 3, userId := 1 }
    (by decide)

/-- C10: the created feeding's cat reference comes from the URL path — the
handler overwrites `cat_id` after `save(commit=False)` — so two submissions
differing only in the client-supplied cat field produce identical outcomes,
and after a valid submission every feeding is either pre-existing or attached
to the URL's cat. -/
theorem add_feeding_cat_from_url (catId : Nat) (st : Store)
    (date meal : String) (cA cB : Option Nat) :
    add_feeding catId { date := date, meal := meal, clientCat := cA } st =
      add_feeding catId { date := date, meal := meal, clientCat := cB } st ∧
    (feedingFormIsValid { date := date, meal := meal, clientCat := cA } = true →
      ∀ fd ∈ (add_feeding catId
          { date := date, meal := meal, clientCat := cA } st).2.feedings,
        fd ∈ st.feedings ∨ fd.catId = catId) := by
  constructor
  · rfl
  · intro hv fd hfd
    simp [add_feeding, hv, formSaveCommitFalse] at hfd
    rcases hfd with hOld | hNew
    · exact Or.inl hOld
    · right
      rw [hNew]

/-- Witness for C10: a valid submission carrying a bogus client cat field 99
behaves exactly like one carrying none, and the resulting feedings all belong
to cat 1 from the URL. -/
theorem add_feeding_cat_from_url_witness :
    (add_feeding 1 { date := "2023-04-05", meal := "B", clientCat := some 99 }
        demoStore =
      add_feeding 1 { date := "2023-04-05", meal := "B", clientCat := none }
        demoStore) ∧
    (∀ fd ∈ (add_feeding 1
        { date := "2023-04-05", meal := "B", clientCat := some 99 }
        demoStore).2.feedings,
      fd ∈ demoStore.feedings ∨ fd.catId = 1) :=
  ⟨(add_feeding_cat_from_url 1 demoStore "2023-04-05" "B" (some 99) none).1,
   (add_feeding_cat_from_url 1 demoStore "2023-04-05" "B" (some 99) none).2
     (by decide)⟩

/-- Splitting a character list at its first occurrence of `c`: the list is
its `c`-free leading segment, then `c`, then a remainder. -/
lemma takeWhile_split_at_char (c : Char) :
    ∀ r : List Char, c ∈ r →
      ∃ b, r = r.takeWhile (fun x => x != c) ++ c :: b := by
  intro r hr
  induction r with
  | nil => cases hr
  | cons x xs ih =>
    by_cases hx : x = c
    · subst hx
      exact ⟨xs, by simp [List.takeWhile_cons]⟩
    · rcases List.mem_cons.mp hr with h1 | h2
      · exact absurd h1.symm hx
      · obtain ⟨b, hb⟩ := ih h2
        refine ⟨b, ?_⟩
        have hcond : (x != c) = true := by simp [hx]
        simpa [List.takeWhile_cons, hcond] using hb

/-- Bridge between the Python mechanics in `add_photo` and the spec's
phrasing: for a filename containing a dot, the slice
`name[name.rfind('.'):]` equals the extension from the last dot onward. -/
lemma pySlice_rfind_eq_extFromLastDot (s : String) (h : '.' ∈ s.toList) :
    pySliceFrom s (pyRfind s '.') = extFromLastDot s := by
  have hrev : '.' ∈ s.toList.reverse := List.mem_reverse.mpr h
  obtain ⟨b, hb⟩ := takeWhile_split_at_char '.' s.toList.reverse hrev
  have hl : s.toList =
      b.reverse ++ '.' ::
        (s.toList.reverse.takeWhile (fun x => x != '.')).reverse := by
    conv_lhs => rw [← List.reverse_reverse s.toList, hb]
    simp
  have hlen : s.length = s.toList.length := rfl
  have hLl : s.toList.length =
      b.length + 1 +
        (s.toList.reverse.takeWhile (fun x => x != '.')).length := by
    conv_lhs => rw [hl]
    simp
    omega
  have hrfind : pyRfind s '.' = (b.length : Int) := by
    have : pyRfind s '.' =
        (s.toList.length : Int) - 1 -
          ((s.toList.reverse.takeWhile (fun x => x != '.')).length : Int) := rfl
    rw [this, hLl]
    push_cast
    ring
  have hcontains : s.toList.contains '.' = true := by
    simpa using h
  have hdrop : s.toList.drop b.length =
      '.' :: (s.toList.reverse.takeWhile (fun x => x != '.')).reverse := by
    conv_lhs => rw [hl, ← List.length_reverse b]
    exact List.drop_left _ _
  rw [hrfind]
  have hnneg : ¬((b.length : Int) < 0) := by omega
  have hmax : (max 0 (b.length : Int)).toNat = b.length := by omega
  simp only [pySliceFrom]
  rw [if_neg hnneg, hmax, hdrop, extFromLastDot, if_pos hcontains]

/-- C3 as stated fails: the object key depends only on the first six hex
characters of the random token — two distinct uuid hexes that agree on their
first six characters yield the same key — so the token ranges over at most
16^6 = 2^24 values, far below the claimed 2^48. -/
theorem genKey_entropy_below_48_bits :
    genKey "abc123ffffffffffffffffffffffffff" "selfie.png" =
      genKey "abc12300000000000000000000000000" "selfie.png" ∧
    "abc123ffffffffffffffffffffffffff" ≠ "abc12300000000000000000000000000" ∧
    (16 : ℕ) ^ 6 < 2 ^ 48 := by
  refine ⟨by decide, by decide, by norm_num⟩

/-- C3 amended: the object key is the first six characters of the random uuid
hex — a token with at most 16^6 = 2^24 possibilities, i.e. 24 bits of
entropy — concatenated with the file extension taken from the last dot of the
original filename onward (for filenames that contain a dot). -/
theorem genKey_token6_and_extension (uuidHex fileName : String)
    (h : '.' ∈ fileName.toList) :
    genKey uuidHex fileName =
      String.mk (uuidHex.toList.take 6) ++ extFromLastDot fileName ∧
    (uuidHex.toList.take 6).length ≤ 6 ∧
    (16 : ℕ) ^ 6 = 2 ^ 24 := by
  refine ⟨?_, ?_, by norm_num⟩
  · rw [genKey, pySlice_rfind_eq_extFromLastDot fileName h]
  · simp

/-- Witness for the amended C3 on a concrete uuid hex and filename. -/
theorem genKey_token6_and_extension_witness :
    genKey "0123456789abcdef0123456789abcdef" "cat.png" =
      String.mk ("0123456789abcdef0123456789abcdef".toList.take 6) ++
        extFromLastDot "cat.png" ∧
    ("0123456789abcdef0123456789abcdef".toList.take 6).length ≤ 6 ∧
    (16 : ℕ) ^ 6 = 2 ^ 24 :=
  genKey_token6_and_extension "0123456789abcdef0123456789abcdef" "cat.png"
    (by decide)

end CatCollector
